import Mathlib

/-!
Verification of the connection-manager library in src/pgsql.py against its
natural-language specification.  The Python module is shallowly embedded:
dictionaries of connection arguments become a structure, the psycopg2 driver
becomes an explicit world of numbered handles, wall-clock time becomes a
natural-number timestamp passed in explicitly, and the outcome of each query
attempt (success, operational error, other error) becomes an oracle
`Nat → Outcome` indexed by the attempt number.
-/

namespace Pg

/-- Connection arguments, mirroring the `con_args` dictionary keys
`host`, `port`, `user`, `password`, `database`. -/
structure ConArgs where
  host : String
  port : Nat
  user : String
  password : String
  database : String
deriving Repr, DecidableEq

/-- The driver world: handles are numbered consecutively by `nextId`;
`openIds` lists the ids of the currently open handles; `connectLog`
records the argument set of every `psycopg2.connect` call, newest first. -/
structure World where
  nextId : Nat
  openIds : List Nat
  connectLog : List ConArgs
deriving Repr, DecidableEq

/-- psycopg2.connect on a successful attempt: allocates a fresh open handle
and logs the arguments it was called with. -/
def World.connect (w : World) (a : ConArgs) : Nat × World :=
  (w.nextId,
   { nextId := w.nextId + 1,
     openIds := w.nextId :: w.openIds,
     connectLog := a :: w.connectLog })

/-- The `closed` attribute of a handle: nonzero (modelled as `true`) when the
handle is not among the open ones. -/
def World.isClosed (w : World) (h : Nat) : Bool :=
  decide (h ∉ w.openIds)

/-- con.close(): removes the handle from the open set. -/
def World.close (w : World) (h : Nat) : World :=
  { w with openIds := w.openIds.erase h }

/-- Number of live (open) handles in the world. -/
def World.openCount (w : World) : Nat :=
  w.openIds.length

/-- The world is well formed when every open handle id was in fact issued. -/
def World.wf (w : World) : Prop :=
  ∀ i ∈ w.openIds, i < w.nextId

/-- do_iam_auth: when the password field holds the sentinel `IAM`, replace it
by a token issued for (host, port, user).  The second component counts the
calls made to the IAM token provider. -/
def do_iam_auth (tok : String → Nat → String → String) (a : ConArgs) :
    ConArgs × Nat :=
  if a.password = "IAM" then
    ({ a with password := tok a.host a.port a.user }, 1)
  else (a, 0)

/-- do_sem_auth: when the password field holds the sentinel `SEM`, replace
user and password by the stored secret pair looked up by user.  The second
component counts the calls made to the secret store. -/
def do_sem_auth (sem : String → String × String) (a : ConArgs) :
    ConArgs × Nat :=
  if a.password = "SEM" then
    ({ a with user := (sem a.user).1, password := (sem a.user).2 }, 1)
  else (a, 0)

/-- Credential resolution as performed at the start of PgSQL.connect:
first do_iam_auth, then do_sem_auth.  Returns the resolved arguments
together with the number of calls to each provider. -/
def resolveAuth (tok : String → Nat → String → String)
    (sem : String → String × String) (a : ConArgs) : ConArgs × Nat × Nat :=
  let r1 := do_iam_auth tok a
  let r2 := do_sem_auth sem r1.1
  (r2.1, r1.2, r2.2)

/-- Manager state: the fields of a PgSQL instance that the claims are about.
`con` is the current handle (None or a handle id), `conLast` the timestamp of
the last successful connect, `tunnel` the optional local bind endpoint of an
active tunnel. -/
structure PgState where
  con : Option Nat
  origConArgs : ConArgs
  conArgs : ConArgs
  conLast : Nat
  tunnel : Option (String × Nat)
deriving Repr, DecidableEq

namespace PgSQL

/-- The connection arguments a call to PgSQL.connect passes to the driver:
the explicit argument if given, otherwise a copy of the stored con_args;
credential sentinels resolved, then host and port overridden when a tunnel
is active.  Also returns the two provider call counts. -/
def connectArgs (tok : String → Nat → String → String)
    (sem : String → String × String) (s : PgState)
    (conArgs? : Option ConArgs) : ConArgs × Nat × Nat :=
  let a := conArgs?.getD s.conArgs
  let r := resolveAuth tok sem a
  let a2 := match s.tunnel with
    | some hp => { r.1 with host := hp.1, port := hp.2 }
    | none => r.1
  (a2, r.2)

/-- PgSQL.connect on a successful driver connect: resolves the arguments,
calls the driver, and returns the new handle, the updated world and the
manager state, which connect never assigns to. -/
def connect (tok : String → Nat → String → String)
    (sem : String → String × String) (s : PgState) (w : World)
    (conArgs? : Option ConArgs) : Nat × World × PgState :=
  let a := (connectArgs tok sem s conArgs?).1
  let hw := w.connect a
  (hw.1, hw.2, s)

/-- The reconnect arm of PgSQL.connection: `self.con = self.connect()`
followed by `self.con_last = datetime.now()`. -/
def reconnect (tok : String → Nat → String → String)
    (sem : String → String × String) (now : Nat) (s : PgState) (w : World) :
    Nat × PgState × World :=
  let r := connect tok sem s w none
  (r.1, { s with con := some r.1, conLast := now }, r.2.1)

/-- PgSQL.connection: return the stored handle unless it is absent, closed,
or older than 60 seconds; otherwise reconnect and reset the timestamp. -/
def connection (tok : String → Nat → String → String)
    (sem : String → String × String) (now : Nat) (s : PgState) (w : World) :
    Nat × PgState × World :=
  match s.con with
  | none => reconnect tok sem now s w
  | some h =>
    if w.isClosed h then reconnect tok sem now s w
    else if now - s.conLast > 60 then reconnect tok sem now s w
    else (h, s, w)

/-- PgSQL.disconnect: restore con_args to a copy of the originals; when a
handle is stored, close it only if it is still open, then clear the
reference. -/
def disconnect (s : PgState) (w : World) : PgState × World :=
  let s1 := { s with conArgs := s.origConArgs }
  match s1.con with
  | none => (s1, w)
  | some h =>
    ({ s1 with con := none }, if w.isClosed h then w else w.close h)

end PgSQL

/-- MAX_ATTEMPTS, the retry budget of the _exec loop. -/
def MAX_ATTEMPTS : Nat := 3

/-- A result row of the RealDictCursor: an ordered mapping from column name
to value. -/
abbrev Row := List (String × String)

/-- The outcome of one attempt of the _exec loop body (acquire the
connection, execute the query, fetch): success with the fetched rows, a
psycopg2 OperationalError, or any other exception. -/
inductive Outcome where
  | ok (rows : List Row)
  | opFail (e : Nat)
  | fatal (e : Nat)
deriving Repr, DecidableEq

/-- What _exec returns for a given fetch mode. -/
inductive QueryRes where
  | allRows (rows : List Row)
  | oneRow (row? : Option Row)
  | noRes
deriving Repr, DecidableEq

/-- An exception escaping _exec, remembering whether it was the
OperationalError of an attempt or some other exception. -/
inductive ExecError where
  | opErr (e : Nat)
  | otherErr (e : Nat)
deriving Repr, DecidableEq

/-- The value produced by a run of the _exec loop: a returned result, a
raised exception, or the implicit None of falling out of the while loop. -/
inductive ExecResult where
  | ok (r : QueryRes)
  | raised (e : ExecError)
  | exhausted
deriving Repr, DecidableEq

/-- Observable side effects of the _exec loop between attempts. -/
inductive Event where
  | disconnect
  | sleep (secs : Nat)
deriving Repr, DecidableEq

/-- The three fetch modes of the Fetch enum. -/
inductive Fetch where
  | All
  | Zro
  | One
deriving Repr, DecidableEq

/-- Result selection inside the attempt body: fetchall for All, fetchone
for One (first row or None), and None for Zro. -/
def fetchRes : Fetch → List Row → QueryRes
  | .All, rows => .allRows rows
  | .One, rows => .oneRow rows.head?
  | .Zro, _ => .noRes

namespace PgSQL

/-- The while loop of PgSQL._exec, recursing on the remaining attempt
count.  The oracle gives the outcome of attempt number
MAX_ATTEMPTS - attempts (0-based).  On an OperationalError with more than
one attempt left, the manager disconnects, sleeps
8 ^ (MAX_ATTEMPTS - attempts) seconds and retries; on the last attempt the
error is re-raised; any other exception propagates at once.  Returns the
result together with the list of disconnect and sleep events. -/
def execAux (oracle : Nat → Outcome) (fetch : Fetch) :
    Nat → ExecResult × List Event
  | 0 => (.exhausted, [])
  | n + 1 =>
    match oracle (MAX_ATTEMPTS - (n + 1)) with
    | .ok rows => (.ok (fetchRes fetch rows), [])
    | .fatal e => (.raised (.otherErr e), [])
    | .opFail e =>
      if n = 0 then (.raised (.opErr e), [])
      else
        let rest := execAux oracle fetch n
        (rest.1,
         .disconnect :: .sleep (8 ^ (MAX_ATTEMPTS - (n + 1))) :: rest.2)

/-- PgSQL._exec: the retry loop started with the full budget. -/
def Exec (oracle : Nat → Outcome) (fetch : Fetch) : ExecResult × List Event :=
  execAux oracle fetch MAX_ATTEMPTS

/-- PgSQL.exec: one _exec invocation in mode Zro. -/
def exec (oracle : Nat → Outcome) : ExecResult × List Event :=
  Exec oracle Fetch.Zro

/-- PgSQL.exec_fetch_all: one _exec invocation in mode All. -/
def exec_fetch_all (oracle : Nat → Outcome) : ExecResult × List Event :=
  Exec oracle Fetch.All

/-- PgSQL.exec_fetch_one: one _exec invocation in mode One. -/
def exec_fetch_one (oracle : Nat → Outcome) : ExecResult × List Event :=
  Exec oracle Fetch.One

/-- PgSQL.exec_batch: acquires the connection and runs execute_batch in a
single attempt, with no try/except around it, so any exception of the one
attempt propagates directly and no disconnect or sleep ever happens. -/
def exec_batch (oracle : Nat → Outcome) : ExecResult × List Event :=
  match oracle 0 with
  | .ok _ => (.ok .noRes, [])
  | .opFail e => (.raised (.opErr e), [])
  | .fatal e => (.raised (.otherErr e), [])

/-- PgSQL.exec_values: acquires the connection and runs execute_values in a
single attempt, with no try/except around it, exactly like exec_batch. -/
def exec_values (oracle : Nat → Outcome) : ExecResult × List Event :=
  match oracle 0 with
  | .ok _ => (.ok .noRes, [])
  | .opFail e => (.raised (.opErr e), [])
  | .fatal e => (.raised (.otherErr e), [])

/-- Everything PgSQL.create_db produces: the returned-or-raised outcome, the
final driver world, the argument set handed to the driver, and the id of
the temporary handle it opened. -/
structure CreateDbOut where
  result : Except Nat Unit
  world : World
  usedArgs : ConArgs
  handle : Nat
deriving Repr

/-- PgSQL.create_db: copies con_args with database set to `postgres`,
opens a temporary connection through PgSQL.connect, and executes CREATE
DATABASE.  `execErr` is none when the statement succeeds, in which case the
cursor and the connection are closed; when the statement raises, the
exception propagates and the close calls are never reached. -/
def create_db (tok : String → Nat → String → String)
    (sem : String → String × String) (execErr : Option Nat)
    (name? : Option String) (s : PgState) (w : World) : CreateDbOut :=
  let _name := name?.getD s.conArgs.database
  let ca := { s.conArgs with database := "postgres" }
  let a := (connectArgs tok sem s (some ca)).1
  let hw := w.connect a
  match execErr with
  | some e => ⟨.error e, hw.2, a, hw.1⟩
  | none => ⟨.ok (), hw.2.close hw.1, a, hw.1⟩

/-- Python substring membership `m in s`. -/
def pyIn (m s : String) : Bool :=
  s.toList.tails.any (List.isPrefixOf m.toList)

/-- PgSQL.verify_connection: attempts a raw connect.  `connErr` is none on
success (note that the freshly opened connection is neither stored nor
closed), and carries the exception message on failure; a message containing
`msg` yields False, any other exception re-raises. -/
def verify_connection (tok : String → Nat → String → String)
    (sem : String → String × String) (connErr : Option String)
    (msg : String) (s : PgState) (w : World) : Except String Bool × World :=
  match connErr with
  | none =>
    let a := (connectArgs tok sem s none).1
    let hw := w.connect a
    (.ok true, hw.2)
  | some e => if pyIn msg e then (.ok false, w) else (.error e, w)

end PgSQL

/-- The exception leaving PgSQL.read_query before the file is read: the
IndexError of `qname[0]` on an empty name, or the `SQL not defined` failure
of the existence check. -/
inductive ReadQueryErr where
  | indexError
  | notDefined (qname : String)
deriving Repr, DecidableEq

/-- PgSQL.read_query: `qname[0]` raises IndexError on the empty string;
a name starting with `.` or `/` is used verbatim, any other name resolves
to `qdir/qname.sql`; a missing file raises the not-defined exception,
otherwise the file content is returned.  The filesystem is the oracle
`fs`, mapping a path to its content when the path exists. -/
def PgSQL.read_query (fs : String → Option String) (qdir : String)
    (qname : String) : Except ReadQueryErr String :=
  match qname.data with
  | [] => .error .indexError
  | c :: _ =>
    let sql_file :=
      if c = '.' ∨ c = '/' then qname
      else qdir ++ "/" ++ qname ++ ".sql"
    match fs sql_file with
    | none => .error (.notDefined qname)
    | some content => .ok content

/-- A value stored in the con_args dictionary built from the environment:
a plain string, an int, or a tuple of strings. -/
inductive EnvVal where
  | vStr (s : String)
  | vInt (n : Int)
  | vTup (t : List String)
deriving Repr, DecidableEq

/-- Failures of read_con_args_from_env: KeyError when a required variable
is missing, ValueError when the port does not parse as an int. -/
inductive EnvErr where
  | keyError (k : String)
  | valueError (v : String)
deriving Repr, DecidableEq

/-- os.environ[k]: the value, or a KeyError. -/
def envGet (environ : String → Option String) (k : String) :
    Except EnvErr String :=
  match environ k with
  | some v => .ok v
  | none => .error (.keyError k)

/-- Decimal digits accumulated left to right; none when a non-digit
occurs. -/
def parseNatAux : List Char → Nat → Option Nat
  | [], acc => some acc
  | c :: cs, acc =>
    if c.isDigit then parseNatAux cs (acc * 10 + (c.toNat - 48)) else none

/-- int(v): the parsed decimal value with an optional leading minus sign,
or a ValueError. -/
def pyInt (v : String) : Except EnvErr Int :=
  match v.data with
  | [] => .error (.valueError v)
  | '-' :: [] => .error (.valueError v)
  | '-' :: c :: cs =>
    match parseNatAux (c :: cs) 0 with
    | some n => .ok (-(n : Int))
    | none => .error (.valueError v)
  | cs =>
    match parseNatAux cs 0 with
    | some n => .ok (n : Int)
    | none => .error (.valueError v)

/-- read_con_args_from_env: builds the con_args dictionary, as an ordered
association list, from `<env>_DB_HOST`, `_PORT` (converted to int),
`_USER`, `_PASS` and `_NAME`; when `<env>_DB_APP` is set, the
application_name entry is assigned the expression `os.environ[...],`
whose trailing comma makes it a one-element tuple. -/
def read_con_args_from_env (environ : String → Option String)
    (env : String) : Except EnvErr (List (String × EnvVal)) :=
  match envGet environ (env ++ "_DB_HOST") with
  | .error e => .error e
  | .ok host =>
  match envGet environ (env ++ "_DB_PORT") with
  | .error e => .error e
  | .ok portStr =>
  match pyInt portStr with
  | .error e => .error e
  | .ok port =>
  match envGet environ (env ++ "_DB_USER") with
  | .error e => .error e
  | .ok user =>
  match envGet environ (env ++ "_DB_PASS") with
  | .error e => .error e
  | .ok pw =>
  match envGet environ (env ++ "_DB_NAME") with
  | .error e => .error e
  | .ok name =>
  let con_args := [("host", EnvVal.vStr host), ("port", EnvVal.vInt port),
    ("user", EnvVal.vStr user), ("password", EnvVal.vStr pw),
    ("database", EnvVal.vStr name)]
  match environ (env ++ "_DB_APP") with
  | some app => .ok (con_args ++ [("application_name", EnvVal.vTup [app])])
  | none => .ok con_args

/-- A concrete argument set for evaluating the definitions. -/
def args0 : ConArgs := ⟨"h", 5432, "u", "pw", "db"⟩

/-- A concrete IAM token provider. -/
def tok0 : String → Nat → String → String := fun _ _ _ => "tk"

/-- A concrete secret store. -/
def sem0 : String → String × String := fun _ => ("su", "sp")

/-- A concrete manager state holding handle 0, connected at time 0. -/
def s0 : PgState := ⟨some 0, args0, args0, 0, none⟩

/-- A concrete world in which handle 0 is open. -/
def w0 : World := ⟨1, [0], [args0]⟩

/-- A concrete attempt oracle: a transient failure on the first attempt,
success afterwards. -/
def oracle1 : Nat → Outcome := fun i => if i = 0 then .opFail 7 else .ok []

/-- A concrete environment for the prefix `X` with the optional APP
variable set. -/
def env1 : String → Option String := fun k =>
  if k = "X_DB_HOST" then some "h" else
  if k = "X_DB_PORT" then some "5432" else
  if k = "X_DB_USER" then some "u" else
  if k = "X_DB_PASS" then some "pw" else
  if k = "X_DB_NAME" then some "db" else
  if k = "X_DB_APP" then some "app" else none

/-- The backoff trace of k failed attempts: a disconnect followed by a sleep
of 8 ^ i seconds after the i-th failure (0-based). -/
def backoffTrace (k : Nat) : List Event :=
  ((List.range k).map fun i => [Event.disconnect, Event.sleep (8 ^ i)]).flatten

/-- C1: when all 3 attempts of the _exec retry loop fail with an
operational error, exactly 2 disconnect-then-backoff cycles happen, with
sleeps of 8 ^ 0 = 1 and 8 ^ 1 = 8 seconds, no wait follows the final
failure, and the operational error of the third attempt is raised to the
caller. -/
theorem c1_exec_exhaustion (oracle : Nat → Outcome) (fetch : Fetch)
    (e0 e1 e2 : Nat) (h0 : oracle 0 = .opFail e0)
    (h1 : oracle 1 = .opFail e1) (h2 : oracle 2 = .opFail e2) :
    PgSQL.Exec oracle fetch =
      (.raised (.opErr e2),
       [.disconnect, .sleep (8 ^ 0), .disconnect, .sleep (8 ^ 1)]) := by
  simp [PgSQL.Exec, MAX_ATTEMPTS, PgSQL.execAux, h0, h1, h2]

/-- Witness for C1 at a concrete oracle whose attempt i fails with
operational error i. -/
theorem c1_exec_exhaustion_witness :
    PgSQL.Exec (fun i => .opFail i) Fetch.Zro =
      (.raised (.opErr 2),
       [.disconnect, .sleep (8 ^ 0), .disconnect, .sleep (8 ^ 1)]) :=
  c1_exec_exhaustion (fun i => .opFail i) Fetch.Zro 0 1 2 rfl rfl rfl

/-- C2: a non-operational exception on any attempt k (the earlier attempts
having failed transiently) is raised immediately: the trace holds only the
backoff cycles of the earlier failures, so no disconnect and no sleep
follows the fatal attempt, and no further attempt is made. -/
theorem c2_nontransient_immediate (oracle : Nat → Outcome) (fetch : Fetch)
    (k e : Nat) (hk : k < MAX_ATTEMPTS)
    (hop : ∀ i, i < k → ∃ d, oracle i = .opFail d)
    (hf : oracle k = .fatal e) :
    PgSQL.Exec oracle fetch = (.raised (.otherErr e), backoffTrace k) := by
  have hk3 : k < 3 := hk
  interval_cases k
  · simp [PgSQL.Exec, MAX_ATTEMPTS, PgSQL.execAux, hf, backoffTrace]
  · obtain ⟨d0, h0⟩ := hop 0 (by norm_num)
    simp [PgSQL.Exec, MAX_ATTEMPTS, PgSQL.execAux, h0, hf, backoffTrace]
    decide
  · obtain ⟨d0, h0⟩ := hop 0 (by norm_num)
    obtain ⟨d1, h1⟩ := hop 1 (by norm_num)
    simp [PgSQL.Exec, MAX_ATTEMPTS, PgSQL.execAux, h0, h1, hf, backoffTrace]
    decide

/-- Witness for C2 at a concrete oracle failing fatally on the second
attempt after one transient failure. -/
theorem c2_nontransient_immediate_witness :
    PgSQL.Exec (fun i => if i = 0 then .opFail 3 else .fatal 9) Fetch.All =
      (.raised (.otherErr 9), backoffTrace 1) :=
  c2_nontransient_immediate (fun i => if i = 0 then .opFail 3 else .fatal 9)
    Fetch.All 1 9 (by norm_num [MAX_ATTEMPTS])
    (fun i hi => by interval_cases i; exact ⟨3, rfl⟩) rfl

/-- C3 counterexample: starting from a manager holding the open handle 0,
a connection() call past the staleness threshold stores a new handle but
does not close the old one, leaving two live handles; likewise a successful
verify_connection leaves the handle it opened open.  This refutes the claim
that at most one live handle exists at every point. -/
theorem c3_two_live_handles_counterexample :
    (PgSQL.connection tok0 sem0 61 s0 w0).2.2.openCount = 2 ∧
    (PgSQL.connection tok0 sem0 61 s0 w0).2.2.isClosed 0 = false ∧
    (PgSQL.connection tok0 sem0 61 s0 w0).2.2.isClosed 1 = false ∧
    (PgSQL.connection tok0 sem0 61 s0 w0).2.1.con = some 1 ∧
    (PgSQL.verify_connection tok0 sem0 none "x" s0 w0).2.openCount = 2 :=
  ⟨rfl, rfl, rfl, rfl, rfl⟩

/-- C3 amended: a forced refresh of a stale-but-open handle stores a fresh
handle without closing the old one, so both stay live and the live-handle
count grows by one; a successful verify_connection also leaves the handle
it opened live and unreferenced.  More than one live handle per manager is
therefore possible. -/
theorem c3_forced_refresh_leaks_old_handle (tok : String → Nat → String → String)
    (sem : String → String × String) (s : PgState) (w : World) (h now : Nat)
    (hwf : w.wf) (hcon : s.con = some h) (hopen : w.isClosed h = false)
    (hstale : now - s.conLast > 60) :
    (PgSQL.connection tok sem now s w).1 = w.nextId ∧
    (PgSQL.connection tok sem now s w).2.1.con = some w.nextId ∧
    w.nextId ≠ h ∧
    (PgSQL.connection tok sem now s w).2.2.isClosed h = false ∧
    (PgSQL.connection tok sem now s w).2.2.isClosed w.nextId = false ∧
    (PgSQL.connection tok sem now s w).2.2.openCount = w.openCount + 1 ∧
    (∀ msg, (PgSQL.verify_connection tok sem none msg s w).1 = .ok true ∧
      (PgSQL.verify_connection tok sem none msg s w).2.isClosed w.nextId = false ∧
      (PgSQL.verify_connection tok sem none msg s w).2.openCount =
        w.openCount + 1) := by
  have hmem : h ∈ w.openIds := by
    by_contra hm
    simp [World.isClosed, hm] at hopen
  have hlt : h < w.nextId := hwf h hmem
  refine ⟨?_, ?_, ?_, ?_, ?_, ?_, ?_⟩ <;>
    simp [PgSQL.connection, PgSQL.reconnect, PgSQL.connect, World.connect,
      World.isClosed, World.openCount, PgSQL.verify_connection, hcon, hopen,
      hstale, hmem]
  omega

/-- Witness for C3 amended, at the concrete stale manager. -/
theorem c3_forced_refresh_leaks_old_handle_witness :
    (PgSQL.connection tok0 sem0 61 s0 w0).2.2.openCount = w0.openCount + 1 :=
  (c3_forced_refresh_leaks_old_handle tok0 sem0 s0 w0 0 61
    (by intro i hi; simp [w0] at hi ⊢; omega) rfl rfl
    (by decide)).2.2.2.2.2.1

/-- The credential-resolution step never changes the database field. -/
theorem resolveAuth_database (tok : String → Nat → String → String)
    (sem : String → String × String) (a : ConArgs) :
    (resolveAuth tok sem a).1.database = a.database := by
  simp only [resolveAuth, do_iam_auth, do_sem_auth]
  split <;> split <;> rfl

/-- PgSQL.connect passes the database name of its explicit argument through
to the driver unchanged. -/
theorem connectArgs_database (tok : String → Nat → String → String)
    (sem : String → String × String) (s : PgState) (b : ConArgs) :
    (PgSQL.connectArgs tok sem s (some b)).1.database = b.database := by
  simp only [PgSQL.connectArgs, Option.getD]
  cases s.tunnel <;> simp [resolveAuth_database]

/-- C4 counterexample: when the CREATE DATABASE statement raises, create_db
propagates the error and the temporary connection is left open, refuting
the claim that the temporary connection is closed on every outcome. -/
theorem c4_leaked_admin_connection_counterexample :
    (PgSQL.create_db tok0 sem0 (some 5) none s0 w0).result = .error 5 ∧
    (PgSQL.create_db tok0 sem0 (some 5) none s0 w0).world.isClosed
      (PgSQL.create_db tok0 sem0 (some 5) none s0 w0).handle = false :=
  ⟨rfl, rfl⟩

/-- C4 amended: create_db always connects to the bootstrap database
`postgres` through exactly one, never retried connect; on success the
temporary connection is closed (the set of open handles is restored), but
when the CREATE DATABASE statement raises, the error propagates and the
temporary connection is left open. -/
theorem c4_create_db_bootstrap (tok : String → Nat → String → String)
    (sem : String → String × String) (execErr : Option Nat)
    (name? : Option String) (s : PgState) (w : World) :
    (PgSQL.create_db tok sem execErr name? s w).usedArgs.database = "postgres" ∧
    (PgSQL.create_db tok sem execErr name? s w).handle = w.nextId ∧
    (PgSQL.create_db tok sem execErr name? s w).world.connectLog.length =
      w.connectLog.length + 1 ∧
    (execErr = none →
      (PgSQL.create_db tok sem execErr name? s w).result = .ok () ∧
      (PgSQL.create_db tok sem execErr name? s w).world.openIds = w.openIds) ∧
    (∀ e, execErr = some e →
      (PgSQL.create_db tok sem execErr name? s w).result = .error e ∧
      (PgSQL.create_db tok sem execErr name? s w).world.isClosed w.nextId =
        false) := by
  cases execErr <;>
    simp [PgSQL.create_db, World.connect, World.close, World.isClosed,
      connectArgs_database]

/-- Witness for C4 amended: on the concrete manager with a succeeding
statement, the temporary connection is closed again. -/
theorem c4_create_db_bootstrap_witness :
    (PgSQL.create_db tok0 sem0 none none s0 w0).result = .ok () ∧
    (PgSQL.create_db tok0 sem0 none none s0 w0).world.openIds = w0.openIds :=
  (c4_create_db_bootstrap tok0 sem0 none none s0 w0).2.2.2.1 rfl

/-- C6: with a stored handle that reports itself open, a connection() call
61 seconds after the last connect reconnects exactly once, storing the
fresh handle and resetting the timestamp, while a call 59 seconds after
returns the stored handle with the manager and the driver world unchanged;
the refresh happens even though the handle is open. -/
theorem c6_staleness_threshold (tok : String → Nat → String → String)
    (sem : String → String × String) (s : PgState) (w : World) (h : Nat)
    (hcon : s.con = some h) (hopen : w.isClosed h = false) :
    (PgSQL.connection tok sem (s.conLast + 61) s w).1 = w.nextId ∧
    (PgSQL.connection tok sem (s.conLast + 61) s w).2.1.con = some w.nextId ∧
    (PgSQL.connection tok sem (s.conLast + 61) s w).2.1.conLast =
      s.conLast + 61 ∧
    (PgSQL.connection tok sem (s.conLast + 61) s w).2.2.connectLog.length =
      w.connectLog.length + 1 ∧
    PgSQL.connection tok sem (s.conLast + 59) s w = (h, s, w) := by
  have h61 : s.conLast + 61 - s.conLast > 60 := by omega
  have h59 : ¬ s.conLast + 59 - s.conLast > 60 := by omega
  simp [PgSQL.connection, PgSQL.reconnect, PgSQL.connect, World.connect,
    hcon, hopen, h61, h59]

/-- Witness for C6 at the concrete manager connected at time 0. -/
theorem c6_staleness_threshold_witness :
    PgSQL.connection tok0 sem0 (s0.conLast + 59) s0 w0 = (0, s0, w0) :=
  (c6_staleness_threshold tok0 sem0 s0 w0 0 rfl rfl).2.2.2.2

/-- C7: disconnect is idempotent, and after any disconnect the handle
reference is cleared and the mutable connection parameters are restored to
the original unresolved ones.  The embedding of disconnect is total, so no
state makes it raise. -/
theorem c7_disconnect_idempotent (s : PgState) (w : World) :
    PgSQL.disconnect (PgSQL.disconnect s w).1 (PgSQL.disconnect s w).2 =
      PgSQL.disconnect s w ∧
    (PgSQL.disconnect s w).1.con = none ∧
    (PgSQL.disconnect s w).1.conArgs = s.origConArgs := by
  cases hc : s.con <;> simp [PgSQL.disconnect, hc]

/-- C5 counterexample: on an attempt oracle with one transient failure
followed by success, exec (through the retry loop) retries after one
disconnect-and-backoff cycle and succeeds, while exec_batch and exec_values
propagate the operational error of the single attempt at once with no
disconnect and no backoff — they are not run through the retrying
executor. -/
theorem c5_bulk_variants_not_retried_counterexample :
    PgSQL.exec_batch oracle1 = (.raised (.opErr 7), []) ∧
    PgSQL.exec_values oracle1 = (.raised (.opErr 7), []) ∧
    PgSQL.exec oracle1 = (.ok .noRes, [.disconnect, .sleep 1]) :=
  ⟨rfl, rfl, rfl⟩

/-- C5 amended: exec, exec_fetch_one and exec_fetch_all each perform their
query through exactly one run of the retrying executor, but exec_batch and
exec_values bypass it: they make a single attempt whose transient failure
propagates immediately, with no retry, no disconnect and no backoff. -/
theorem c5_retry_scope (oracle : Nat → Outcome) (e : Nat)
    (h : oracle 0 = .opFail e) :
    PgSQL.exec oracle = PgSQL.Exec oracle Fetch.Zro ∧
    PgSQL.exec_fetch_one oracle = PgSQL.Exec oracle Fetch.One ∧
    PgSQL.exec_fetch_all oracle = PgSQL.Exec oracle Fetch.All ∧
    PgSQL.exec_batch oracle = (.raised (.opErr e), []) ∧
    PgSQL.exec_values oracle = (.raised (.opErr e), []) := by
  refine ⟨rfl, rfl, rfl, ?_, ?_⟩ <;>
    simp [PgSQL.exec_batch, PgSQL.exec_values, h]

/-- Witness for C5 amended at the concrete oracle with a transient failure
on the first attempt. -/
theorem c5_retry_scope_witness :
    PgSQL.exec_batch oracle1 = (.raised (.opErr 7), []) ∧
    PgSQL.exec_values oracle1 = (.raised (.opErr 7), []) :=
  ⟨(c5_retry_scope oracle1 7 rfl).2.2.2.1, (c5_retry_scope oracle1 7 rfl).2.2.2.2⟩

/-- C8: a parameter set whose password is the sentinel IAM is resolved by
exactly one IAM-provider call (and no secret-store call), keeping the user
and replacing the password by the token issued for host, port and user
(provided the issued token is not itself the SEM sentinel, which the
subsequent do_sem_auth check would intercept); a parameter set whose
password is no recognized sentinel passes through with no provider call;
and connect() without an explicit argument resolves a copy, leaving the
manager state, in particular its stored con_args, unchanged. -/
theorem c8_iam_resolution (tok : String → Nat → String → String)
    (sem : String → String × String) (a : ConArgs) (s : PgState) (w : World) :
    (a.password = "IAM" → tok a.host a.port a.user ≠ "SEM" →
      resolveAuth tok sem a =
        ({ a with password := tok a.host a.port a.user }, 1, 0)) ∧
    (a.password ≠ "IAM" → a.password ≠ "SEM" →
      resolveAuth tok sem a = (a, 0, 0)) ∧
    (PgSQL.connect tok sem s w none).2.2 = s := by
  refine ⟨?_, ?_, rfl⟩ <;> intro h1 h2 <;>
    simp [resolveAuth, do_iam_auth, do_sem_auth, h1, h2]

/-- Witness for C8 at a concrete IAM parameter set and a concrete
pass-through set. -/
theorem c8_iam_resolution_witness :
    resolveAuth tok0 sem0 ⟨"h", 5432, "u", "IAM", "db"⟩ =
      (⟨"h", 5432, "u", "tk", "db"⟩, 1, 0) ∧
    resolveAuth tok0 sem0 args0 = (args0, 0, 0) :=
  ⟨(c8_iam_resolution tok0 sem0 ⟨"h", 5432, "u", "IAM", "db"⟩ s0 w0).1 rfl
      (by decide),
   (c8_iam_resolution tok0 sem0 args0 s0 w0).2.1 (by decide) (by decide)⟩

/-- C9: when the five required variables are present (the port parsing as
an int) and the optional APP variable is set, the assembled con_args holds
the five required keys as plain values, the port as an int, and the
application_name as a one-element tuple holding the string, owing to the
trailing comma in the assignment. -/
theorem c9_app_name_is_tuple (environ : String → Option String) (env : String)
    (host port user pw name app : String) (p : Int)
    (hh : environ (env ++ "_DB_HOST") = some host)
    (hp : environ (env ++ "_DB_PORT") = some port)
    (hpi : pyInt port = .ok p)
    (hu : environ (env ++ "_DB_USER") = some user)
    (hpw : environ (env ++ "_DB_PASS") = some pw)
    (hn : environ (env ++ "_DB_NAME") = some name)
    (ha : environ (env ++ "_DB_APP") = some app) :
    read_con_args_from_env environ env =
      .ok [("host", .vStr host), ("port", .vInt p), ("user", .vStr user),
        ("password", .vStr pw), ("database", .vStr name),
        ("application_name", .vTup [app])] := by
  simp [read_con_args_from_env, envGet, hh, hp, hpi, hu, hpw, hn, ha]

/-- Witness for C9 at the concrete environment for the prefix X. -/
theorem c9_app_name_is_tuple_witness :
    read_con_args_from_env env1 "X" =
      .ok [("host", .vStr "h"), ("port", .vInt 5432), ("user", .vStr "u"),
        ("password", .vStr "pw"), ("database", .vStr "db"),
        ("application_name", .vTup ["app"])] :=
  c9_app_name_is_tuple env1 "X" "h" "5432" "u" "pw" "db" "app" 5432
    rfl rfl rfl rfl rfl rfl rfl

/-- C10: calling PgSQL.read_query with the empty string as the query name
raises the IndexError of the expression `qname[0]`, not the defined
`SQL not defined` exception; for every non-empty name the function reaches
the file-existence check and either returns the file content or raises the
not-defined exception. -/
theorem c10_read_query_empty_name (fs : String → Option String)
    (qdir qname : String) :
    (qname = "" → PgSQL.read_query fs qdir qname = .error .indexError) ∧
    (qname ≠ "" →
      PgSQL.read_query fs qdir qname = .error (.notDefined qname) ∨
      ∃ q, PgSQL.read_query fs qdir qname = .ok q) := by
  constructor
  · rintro rfl
    rfl
  · intro h
    obtain ⟨data⟩ := qname
    cases data with
    | nil => exact absurd (by decide) h
    | cons c cs =>
      rcases hfs : fs (if c = '.' ∨ c = '/' then String.mk (c :: cs)
          else qdir ++ "/" ++ String.mk (c :: cs) ++ ".sql") with _ | q
      · left
        simp [PgSQL.read_query, hfs]
      · right
        exact ⟨q, by simp [PgSQL.read_query, hfs]⟩

/-- Witness for C10 at the empty name and at a concrete non-empty name. -/
theorem c10_read_query_empty_name_witness :
    PgSQL.read_query (fun _ => none) "sql" "" = .error .indexError ∧
    (PgSQL.read_query (fun _ => none) "sql" "q" = .error (.notDefined "q") ∨
      ∃ q, PgSQL.read_query (fun _ => none) "sql" "q" = .ok q) :=
  ⟨(c10_read_query_empty_name (fun _ => none) "sql" "").1 rfl,
   (c10_read_query_empty_name (fun _ => none) "sql" "q").2 (by decide)⟩

end Pg
